import Mathlib

/-!
Verification development for the market-data acquisition and normalization
pipeline of the `gaza` trading tool.

The definitions below are a shallow embedding of the Python source:

* `src/core/modules/chart.py` (`ChartModule.load_chart_data`): the series
  normalizer — timestamp parsing, row dropping, sorting, deduplication,
  ordinal assignment, numeric coercion, and the tick/bar publication paths.
* `src/core/utils/indicators.py` (`calculate_indicators`): modelled at row
  granularity (which rows survive), since only row count/order/identity is
  observable by the properties below.
* `src/core/api/kiwoom_chart.py` (`KiwoomChartAPI._fetch_chart_data`,
  `_extract_chart_data`): the paginated bulk fetcher.
* `src/core/api/kiwoom.py` (`KiwoomAPI._api_request`, `_ensure_token`,
  `_get_access_token`, `_load_token`, `revoke_token`): the credential
  manager and the authenticated request client with its single
  auth-failure retry.

Numbers that the Python code handles as numeric strings are modelled as
`Option Nat` (a `none` models a pandas `NaN`).  Network and filesystem
effects are modelled by explicit oracles (`NetEnv`, page oracles), and
Python exceptions by explicit error values.
-/

/-! ## Series normalizer (src/core/modules/chart.py)

`ChartModule.load_chart_data` receives a list of JSON records.  Each record
is a string-keyed map; only the seven keys used by the column maps in
lines 100-110 of chart.py are relevant.  A missing key is `none` (pandas
turns it into a `NaN` cell). -/

/-- One raw wire record, restricted to the fields named by the column maps
of `load_chart_data` (chart.py lines 100, 104, 110). -/
structure RawRecord where
  dt : Option String := none
  cntr_tm : Option String := none
  open_pric : Option String := none
  high_pric : Option String := none
  low_pric : Option String := none
  cur_prc : Option String := none
  trde_qty : Option String := none
deriving DecidableEq

/-- The three column-map shapes of `load_chart_data`: daily/weekly/monthly/
yearly bars (`'dt'`, format `%Y%m%d`), minute bars (`'cntr_tm'`, format
`%Y%m%d%H%M%S`) and tick data (`'cntr_tm'`, no OHLC columns). -/
inductive PeriodKind
  | ohlcv
  | minute
  | tick
deriving DecidableEq

def allDigits (cs : List Char) : Bool := cs.all (fun c => c.isDigit)

def digitsToNat (cs : List Char) : Nat :=
  cs.foldl (fun n c => n * 10 + (c.toNat - 48)) 0

/-- `pd.to_datetime(s, format := %Y%m%d, errors := coerce)`: an 8-digit
string with a valid month and day parses; anything else is `NaT`.
The parsed value is the digit string read as a number, which preserves
chronological order for this fixed-width format.  (Day validity is
approximated by `1..31`; the concrete inputs used below are valid
calendar dates, where the model agrees with pandas.) -/
def parseDate8 (s : String) : Option Nat :=
  let cs := s.toList
  if cs.length = 8 ∧ allDigits cs then
    let v := digitsToNat cs
    let mm := v / 100 % 100
    let dd := v % 100
    if 1 ≤ mm ∧ mm ≤ 12 ∧ 1 ≤ dd ∧ dd ≤ 31 then some v else none
  else none

/-- `pd.to_datetime(s, format := %Y%m%d%H%M%S, errors := coerce)`, same
conventions as `parseDate8`. -/
def parseDateTime14 (s : String) : Option Nat :=
  let cs := s.toList
  if cs.length = 14 ∧ allDigits cs then
    let v := digitsToNat cs
    let mm := v / 100000000 % 100
    let dd := v / 1000000 % 100
    let hh := v / 10000 % 100
    let mi := v / 100 % 100
    let ss := v % 100
    if 1 ≤ mm ∧ mm ≤ 12 ∧ 1 ≤ dd ∧ dd ≤ 31 ∧ hh ≤ 23 ∧ mi ≤ 59 ∧ ss ≤ 59
    then some v else none
  else none

/-- Timestamp parser selected by the period kind (chart.py lines 100-110).
The subsequent `tz_localize(Asia/Seoul)` attaches a timezone tag without
changing order or dropping rows (KST has no DST transitions for the data
the tool handles), so it is the identity in this model. -/
def parseTs : PeriodKind → String → Option Nat
  | .ohlcv => parseDate8
  | .minute => parseDateTime14
  | .tick => parseDateTime14

/-- The time column for the period kind (`'dt'` or `'cntr_tm'`). -/
def timeField : PeriodKind → RawRecord → Option String
  | .ohlcv, r => r.dt
  | .minute, r => r.cntr_tm
  | .tick, r => r.cntr_tm

/-- `pd.to_numeric(cell.str.replace(r'[+-,]', ''), errors := coerce)`
(chart.py line 249): strip `+`, `-` and `,` everywhere, then parse; an
unparseable value becomes `NaN` (`none`).  The model covers the
integer-valued cells the wire produces. -/
def parseNum (s : String) : Option Nat :=
  let cs := s.toList.filter (fun c => ¬ (c = '+' ∨ c = '-' ∨ c = ','))
  if cs ≠ [] ∧ allDigits cs then some (digitsToNat cs) else none

/-- Numeric coercion of one cell; a missing cell (pandas `NaN`) stays
missing. -/
def cellNum (v : Option String) : Option Nat := v.bind parseNum

/-- `col in df.columns`: a DataFrame built from a record list has a column
iff some record carries the key (row drops never remove columns). -/
def hasCol (records : List RawRecord) (f : RawRecord → Option String) : Bool :=
  records.any (fun r => (f r).isSome)

/-- A parsed row: the parsed timestamp (the `Date` index value) paired with
the raw record it came from. -/
abbrev Row := Nat × RawRecord

/-- The rows that survive `df.dropna(subset := [Date])` (chart.py
lines 158, 194): those whose time cell is present and parseable. -/
def parsedRows (k : PeriodKind) (records : List RawRecord) : List Row :=
  records.filterMap (fun r => ((timeField k r).bind (parseTs k)).map (fun t => (t, r)))

def rowLe (a b : Row) : Prop := a.1 ≤ b.1

instance : DecidableRel rowLe := fun a b => Nat.decLe a.1 b.1

instance : IsTotal Row rowLe := ⟨fun a b => Nat.le_total a.1 b.1⟩

instance : IsTrans Row rowLe := ⟨fun _ _ _ h1 h2 => Nat.le_trans h1 h2⟩

/-- `df.sort_index()` (chart.py line 208), ascending by the parsed
timestamp. -/
def sortedRows (k : PeriodKind) (records : List RawRecord) : List Row :=
  List.insertionSort rowLe (parsedRows k records)

/-- `df[~df.index.duplicated(keep := last)]` (chart.py line 212): a row
survives iff no later row has the same timestamp.  (The source only runs
the filter when the index is not unique; on a unique index the filter is
the identity, so unconditional filtering is equivalent.) -/
def keepLast : List Row → List Row
  | [] => []
  | r :: rs => if rs.any (fun r2 => r2.1 == r.1) then keepLast rs else r :: keepLast rs

/-- Sorted, deduplicated rows: the state of the frame after chart.py
line 213. -/
def dedupedRows (k : PeriodKind) (records : List RawRecord) : List Row :=
  keepLast (sortedRows k records)

/-- A canonical bar after column renaming, ordinal assignment and numeric
coercion (chart.py lines 216-251).  For tick data the OHLC columns are not
selected, hence `none`. -/
structure Bar where
  ts : Nat
  Open : Option Nat := none
  High : Option Nat := none
  Low : Option Nat := none
  Close : Option Nat := none
  Volume : Option Nat := none
  ordinal : Nat := 0
deriving DecidableEq

/-- Build one canonical bar from a parsed row: renaming (chart.py
lines 221-226), column selection (line 246) and numeric coercion
(lines 247-251) combined, with the ordinal taken from the row position. -/
def mkBar (k : PeriodKind) (i : Nat) (row : Row) : Bar :=
  { ts := row.1
    Open := if k = .tick then none else cellNum row.2.open_pric
    High := if k = .tick then none else cellNum row.2.high_pric
    Low := if k = .tick then none else cellNum row.2.low_pric
    Close := cellNum row.2.cur_prc
    Volume := cellNum row.2.trde_qty
    ordinal := i }

/-- `df[ordinal] = np.arange(len(df))` (chart.py line 216): positional
ordinals starting at `i`. -/
def withOrdinals (k : PeriodKind) : Nat → List Row → List Bar
  | _, [] => []
  | i, row :: rest => mkBar k i row :: withOrdinals k (i + 1) rest

/-- The `ValueError`s that the DataFrame-conversion block of
`load_chart_data` can raise (chart.py lines 150-152, 204, 236/242); the
spec calls this class `DataError`. -/
inductive DataError
  | missingColumn
  | noValidDates
  | missingOHLC
deriving DecidableEq

/-- The normalization stage of `load_chart_data` (chart.py lines 139-259):
column checks, timestamp parsing, dropping unparseable rows, sorting,
keep-last deduplication, ordinal assignment, renaming to canonical
columns, and numeric coercion.  Error precedence follows the source: the
time/Close/Volume column checks (lines 150-152), then the empty-frame
check after `dropna` (line 204), then the OHLC presence check for non-tick
periods (lines 233-242). -/
def normalizeChart (k : PeriodKind) (records : List RawRecord) : Except DataError (List Bar) :=
  if ¬ (hasCol records (timeField k) ∧ hasCol records RawRecord.cur_prc ∧
        hasCol records RawRecord.trde_qty) then
    .error .missingColumn
  else if parsedRows k records = [] then
    .error .noValidDates
  else if k ≠ .tick ∧ ¬ (hasCol records RawRecord.open_pric ∧
        hasCol records RawRecord.high_pric ∧ hasCol records RawRecord.low_pric) then
    .error .missingOHLC
  else
    .ok (withOrdinals k 0 (dedupedRows k records))

/-- All five required numeric cells of a bar are present (no `NaN`). -/
def ohlcvPresent (b : Bar) : Bool :=
  b.Open.isSome && b.High.isSome && b.Low.isSome && b.Close.isSome && b.Volume.isSome

/-- The value a forward fill leaves in a column at row `i`: the last
present value among rows `0..i`. -/
def lastSomeUpTo (f : Bar → Option Nat) (l : List Bar) : Option Nat :=
  l.foldl (fun acc b => match f b with | some v => some v | none => acc) none

/-- Row `b` at position `i` after `df.ffill()` over the required columns
(indicators.py line 45). -/
def ffillRow (rows : List Bar) (i : Nat) (b : Bar) : Bar :=
  { b with
    Open := lastSomeUpTo Bar.Open (rows.take (i + 1))
    High := lastSomeUpTo Bar.High (rows.take (i + 1))
    Low := lastSomeUpTo Bar.Low (rows.take (i + 1))
    Close := lastSomeUpTo Bar.Close (rows.take (i + 1))
    Volume := lastSomeUpTo Bar.Volume (rows.take (i + 1)) }

/-- Forward fill of the whole frame, positionally. -/
def ffillBars (rows : List Bar) : Nat → List Bar → List Bar
  | _, [] => []
  | i, b :: bs => ffillRow rows i b :: ffillBars rows (i + 1) bs

/-- Row-level model of `calculate_indicators` (indicators.py): the derived
columns it appends are outside this model; what matters downstream is
which rows the result contains.  An empty frame, a frame with no `NaN` in
the required columns, and the fallback paths return the input rows
unchanged; otherwise the frame is forward-filled and rows still missing a
required value (a leading `NaN`) are dropped (lines 43-50); if that drops
every row the original frame is returned (line 50). -/
def calculate_indicators (rows : List Bar) : List Bar :=
  if rows.isEmpty then rows
  else if rows.all ohlcvPresent then rows
  else if ((ffillBars rows 0 rows).filter ohlcvPresent).isEmpty then rows
  else (ffillBars rows 0 rows).filter ohlcvPresent

/-- `self.chart_data[ordinal] = df[ordinal].values` (chart.py line 271):
positional reattachment of the pre-indicator ordinals. -/
def attachOrdinals : List Bar → List Bar → List Bar :=
  List.zipWith (fun b ob => { b with ordinal := ob.ordinal })

/-- The series published through `chart_updated` by `load_chart_data`
for a successfully fetched record list (chart.py lines 261-341):

* a `ValueError` during conversion is caught and an empty frame is
  published (lines 261-265; the function does not re-raise);
* tick periods (lines 272-288): rows whose coerced `Close` or `Volume` is
  `NaN` are dropped (line 277) — after ordinals were assigned; the
  `TradingValue` column is a product of the two present values, so its
  own `dropna` (line 280) drops nothing further and is not modelled;
* other periods (lines 268-271): `calculate_indicators` runs on the frame
  and the ordinal column is reattached positionally, which raises (and is
  caught by the outer handler, publishing an empty frame, lines 336-339)
  unless the indicator engine preserved the row count. -/
def publishChart (k : PeriodKind) (records : List RawRecord) : List Bar :=
  match normalizeChart k records with
  | .error _ => []
  | .ok bars =>
    if k = .tick then
      bars.filter (fun b => b.Close.isSome && b.Volume.isSome)
    else
      let res := calculate_indicators bars
      if res.length = bars.length then attachOrdinals res bars else []

/-- Dense ordinals: position `i` carries ordinal `i`. -/
def ordinalsDense (l : List Bar) : Prop :=
  ∀ i : Fin l.length, (l.get i).ordinal = i.val

instance (l : List Bar) : Decidable (ordinalsDense l) :=
  inferInstanceAs (Decidable (∀ i : Fin l.length, (l.get i).ordinal = i.val))

/-- The bars that `normalizeChart` produces on success (empty on a
`DataError`). -/
def normBars (k : PeriodKind) (records : List RawRecord) : List Bar :=
  match normalizeChart k records with
  | .ok bars => bars
  | .error _ => []

/-! ### Lemmas about the normalizer -/

theorem keepLast_sublist (l : List Row) : List.Sublist (keepLast l) l := by
  induction l with
  | nil => simp [keepLast]
  | cons r rs ih =>
    unfold keepLast
    split
    · exact ih.trans (List.sublist_cons_self r rs)
    · exact ih.cons₂ r

theorem mem_keepLast {a : Row} {l : List Row} (h : a ∈ keepLast l) : a ∈ l :=
  (keepLast_sublist l).subset h

theorem keepLast_pairwise_ne (l : List Row) :
    (keepLast l).Pairwise (fun a b => a.1 ≠ b.1) := by
  induction l with
  | nil => simp [keepLast]
  | cons r rs ih =>
    unfold keepLast
    split
    · exact ih
    · refine List.Pairwise.cons (fun b hb => ?_) ih
      rename_i hany
      have hb' : b ∈ rs := mem_keepLast hb
      intro heq
      exact hany (List.any_eq_true.mpr ⟨b, hb', beq_iff_eq.mpr heq.symm⟩)

theorem sortedRows_pairwise (k : PeriodKind) (records : List RawRecord) :
    (sortedRows k records).Pairwise rowLe :=
  List.sorted_insertionSort rowLe (parsedRows k records)

theorem dedupedRows_pairwise_lt (k : PeriodKind) (records : List RawRecord) :
    (dedupedRows k records).Pairwise (fun a b : Row => a.1 < b.1) := by
  have hle : (dedupedRows k records).Pairwise rowLe :=
    (sortedRows_pairwise k records).sublist (keepLast_sublist _)
  have hne : (dedupedRows k records).Pairwise (fun a b => a.1 ≠ b.1) :=
    keepLast_pairwise_ne _
  exact (hle.and hne).imp (fun h => Nat.lt_of_le_of_ne h.1 h.2)

theorem withOrdinals_length (k : PeriodKind) (i : Nat) (rows : List Row) :
    (withOrdinals k i rows).length = rows.length := by
  induction rows generalizing i with
  | nil => rfl
  | cons r rs ih => simp [withOrdinals, ih]

theorem withOrdinals_map_ts (k : PeriodKind) (i : Nat) (rows : List Row) :
    (withOrdinals k i rows).map Bar.ts = rows.map Prod.fst := by
  induction rows generalizing i with
  | nil => rfl
  | cons r rs ih => simp [withOrdinals, mkBar, ih]

theorem withOrdinals_getElem_ordinal (k : PeriodKind) (i : Nat) (rows : List Row) :
    ∀ (j : Nat) (hj : j < (withOrdinals k i rows).length),
      (withOrdinals k i rows)[j].ordinal = i + j := by
  induction rows generalizing i with
  | nil => intro j hj; simp [withOrdinals] at hj
  | cons r rs ih =>
    intro j hj
    cases j with
    | zero => simp [withOrdinals, mkBar]
    | succ j' =>
      have hj' : j' < (withOrdinals k (i + 1) rs).length := by
        simpa [withOrdinals, Nat.succ_lt_succ_iff] using hj
      simpa [withOrdinals, ih (i + 1) j' hj'] using by omega

theorem withOrdinals_pairwise_ordinal (k : PeriodKind) (i : Nat) (rows : List Row) :
    (withOrdinals k i rows).Pairwise (fun a b => a.ordinal < b.ordinal) := by
  rw [List.pairwise_iff_getElem]
  intro a b ha hb hab
  rw [withOrdinals_getElem_ordinal k i rows a ha, withOrdinals_getElem_ordinal k i rows b hb]
  omega

theorem normalizeChart_ok_eq {k : PeriodKind} {records : List RawRecord} {bars : List Bar}
    (h : normalizeChart k records = .ok bars) :
    bars = withOrdinals k 0 (dedupedRows k records) := by
  unfold normalizeChart at h
  split at h
  · exact absurd h (by simp)
  · split at h
    · exact absurd h (by simp)
    · split at h
      · exact absurd h (by simp)
      · exact (Except.ok.inj h).symm

theorem normBars_pairwise_ts (k : PeriodKind) (records : List RawRecord) :
    (normBars k records).Pairwise (fun a b => a.ts < b.ts) := by
  unfold normBars
  cases hn : normalizeChart k records with
  | error e => simp
  | ok bars =>
    rw [normalizeChart_ok_eq hn]
    have hdd := dedupedRows_pairwise_lt k records
    have hmap : ((dedupedRows k records).map Prod.fst).Pairwise (· < ·) :=
      List.pairwise_map.mpr hdd
    rw [← withOrdinals_map_ts k 0 (dedupedRows k records)] at hmap
    exact List.pairwise_map.mp hmap

theorem normBars_ordinal (k : PeriodKind) (records : List RawRecord) :
    ∀ (j : Nat) (hj : j < (normBars k records).length), (normBars k records)[j].ordinal = j := by
  unfold normBars
  cases hn : normalizeChart k records with
  | error e => intro j hj; simp at hj
  | ok bars =>
    rw [normalizeChart_ok_eq hn]
    intro j hj
    simpa using withOrdinals_getElem_ordinal k 0 (dedupedRows k records) j hj

/-- Projection to the two columns the ordering properties observe. -/
def tsOrd (b : Bar) : Nat × Nat := (b.ts, b.ordinal)

theorem ffillBars_map_tsOrd (rows : List Bar) (i : Nat) (l : List Bar) :
    (ffillBars rows i l).map tsOrd = l.map tsOrd := by
  induction l generalizing i with
  | nil => rfl
  | cons b bs ih => simp [ffillBars, ffillRow, tsOrd, ih]

theorem filter_length_eq {α : Type} (p : α → Bool) (l : List α)
    (h : (l.filter p).length = l.length) : l.filter p = l := by
  induction l with
  | nil => rfl
  | cons a l ih =>
    by_cases hp : p a
    · simp only [List.filter_cons, hp, if_pos] at h ⊢
      simp only [List.length_cons, Nat.succ.injEq] at h
      rw [ih h]
    · rw [List.filter_cons_of_neg (by simpa using hp)] at h
      have hle := List.length_filter_le p l
      simp only [List.length_cons] at h
      exact absurd h (by omega)

theorem calculate_indicators_map_tsOrd (rows : List Bar)
    (h : (calculate_indicators rows).length = rows.length) :
    (calculate_indicators rows).map tsOrd = rows.map tsOrd := by
  unfold calculate_indicators at h ⊢
  by_cases h1 : rows.isEmpty
  · simp [h1]
  · simp only [h1, Bool.false_eq_true, if_false] at h ⊢
    by_cases h2 : rows.all ohlcvPresent
    · simp [h2]
    · simp only [h2, Bool.false_eq_true, if_false] at h ⊢
      by_cases h3 : ((ffillBars rows 0 rows).filter ohlcvPresent).isEmpty
      · simp [h3]
      · simp only [h3, Bool.false_eq_true, if_false] at h ⊢
        have hffl : (ffillBars rows 0 rows).length = rows.length := by
          have := congrArg List.length (ffillBars_map_tsOrd rows 0 rows)
          simpa using this
        have heq : (ffillBars rows 0 rows).filter ohlcvPresent = ffillBars rows 0 rows :=
          filter_length_eq _ _ (by omega)
        rw [heq]
        exact ffillBars_map_tsOrd rows 0 rows

theorem attachOrdinals_map_tsOrd (res bars : List Bar)
    (h : res.map tsOrd = bars.map tsOrd) :
    (attachOrdinals res bars).map tsOrd = bars.map tsOrd := by
  induction res generalizing bars with
  | nil =>
    cases bars with
    | nil => rfl
    | cons b bs => simp at h
  | cons r rs ih =>
    cases bars with
    | nil => simp at h
    | cons b bs =>
      simp only [List.map_cons, List.cons.injEq] at h
      have hts : r.ts = b.ts := congrArg Prod.fst h.1
      have htail := ih bs h.2
      simp only [attachOrdinals, List.zipWith_cons_cons, List.map_cons] at htail ⊢
      rw [List.cons.injEq]
      exact ⟨by simp [tsOrd, hts], htail⟩

theorem pairwise_of_map_tsOrd {l₁ l₂ : List Bar} (R : Nat × Nat → Nat × Nat → Prop)
    (h : l₁.map tsOrd = l₂.map tsOrd)
    (hp : l₂.Pairwise (fun a b => R (tsOrd a) (tsOrd b))) :
    l₁.Pairwise (fun a b => R (tsOrd a) (tsOrd b)) := by
  have h2 : (l₂.map tsOrd).Pairwise R := List.pairwise_map.mpr hp
  rw [← h] at h2
  exact List.pairwise_map.mp h2

theorem dense_of_map_tsOrd {l₁ l₂ : List Bar}
    (h : l₁.map tsOrd = l₂.map tsOrd)
    (hd : ∀ (j : Nat) (hj : j < l₂.length), l₂[j].ordinal = j) :
    ordinalsDense l₁ := by
  have hlen : l₁.length = l₂.length := by
    have := congrArg List.length h
    simpa using this
  intro i
  have hi1 : i.val < l₁.length := i.isLt
  have hi2 : i.val < l₂.length := hlen ▸ hi1
  have hcell := congrArg (fun l => l[i.val]?) h
  simp only [List.getElem?_map, List.getElem?_eq_getElem hi1, List.getElem?_eq_getElem hi2,
    Option.map_some] at hcell
  have : l₁[i.val].ordinal = l₂[i.val].ordinal := congrArg Prod.snd (Option.some.inj hcell)
  rw [List.get_eq_getElem, this, hd i.val hi2]

theorem keepLast_find (l : List Row) (t : Nat) :
    (keepLast l).find? (fun r => r.1 == t) = l.reverse.find? (fun r => r.1 == t) := by
  induction l with
  | nil => rfl
  | cons r rs ih =>
    rw [List.reverse_cons, List.find?_append]
    unfold keepLast
    by_cases hany : rs.any (fun r2 => r2.1 == r.1)
    · rw [if_pos hany, ih]
      by_cases ht : (r.1 == t) = true
      · have ht' : r.1 = t := beq_iff_eq.mp ht
        have hex : ∃ a ∈ rs.reverse, (a.1 == t) = true := by
          obtain ⟨a, ha, hpa⟩ := List.any_eq_true.mp hany
          exact ⟨a, List.mem_reverse.mpr ha, by
            rw [beq_iff_eq] at hpa ⊢; rw [hpa, ht']⟩
        have hsome : (rs.reverse.find? (fun r2 => r2.1 == t)).isSome :=
          List.find?_isSome.mpr hex
        rw [Option.or_of_isSome hsome]
      · rw [Bool.not_eq_true] at ht
        have hone : List.find? (fun r2 => r2.1 == t) [r] = none := by
          simp only [List.find?_cons, List.find?_nil, ht]
        rw [hone, Option.or_none]
    · rw [if_neg hany]
      by_cases ht : (r.1 == t) = true
      · have hr : r.1 = t := beq_iff_eq.mp ht
        have hnone : rs.reverse.find? (fun r2 => r2.1 == t) = none := by
          rw [List.find?_eq_none]
          intro a ha hpa
          exact hany (List.any_eq_true.mpr ⟨a, List.mem_reverse.mp ha, by
            rw [beq_iff_eq] at hpa ⊢; rw [hpa, hr]⟩)
        rw [hnone, Option.none_or]
        simp only [List.find?_cons, List.find?_singleton, ht]
      · rw [Bool.not_eq_true] at ht
        have hone : List.find? (fun r2 => r2.1 == t) [r] = none := by
          simp only [List.find?_cons, List.find?_nil, ht]
        simp only [List.find?_cons, ht, hone, Option.or_none, ih]

/-- C2 counterexample input: two tick records with valid timestamps, the
first carrying an unparseable volume string.  The first row is dropped by
the `dropna` after the ordinals were already assigned (chart.py
lines 216, 277), leaving a published series whose only ordinal is `1`. -/
def c2tickRecords : List RawRecord :=
  [{ cntr_tm := some "20240102100000", cur_prc := some "100", trde_qty := some "abc" },
   { cntr_tm := some "20240102100001", cur_prc := some "101", trde_qty := some "10" }]

/-- C2, claim as stated, is false: this raw record list normalizes
successfully under the tick period kind, yet the published series does not
have a dense `0..N-1` ordinal column (its single surviving row carries
ordinal 1). -/
theorem c2_counterexample :
    (normalizeChart PeriodKind.tick c2tickRecords).toOption.isSome = true ∧
    ¬ ordinalsDense (publishChart PeriodKind.tick c2tickRecords) := by
  constructor
  · decide
  · decide

/-- C2 (amended): for every raw record list and period kind, the published
series has strictly increasing timestamps (hence no duplicates) and a
strictly increasing ordinal column; the ordinals are additionally dense
`0..N-1` for every non-tick period kind, and for the tick kind whenever no
row is dropped by the Close/Volume numeric cleanup (in particular whenever
every Close and Volume cell parses). -/
theorem c2_published_ordinals_and_timestamps (k : PeriodKind) (records : List RawRecord) :
    (publishChart k records).Pairwise (fun a b => a.ts < b.ts) ∧
    (publishChart k records).Pairwise (fun a b => a.ordinal < b.ordinal) ∧
    (k ≠ PeriodKind.tick → ordinalsDense (publishChart k records)) ∧
    ((∀ b ∈ normBars k records, b.Close.isSome ∧ b.Volume.isSome) →
      ordinalsDense (publishChart k records)) := by
  cases hn : normalizeChart k records with
  | error e =>
    have hpub : publishChart k records = [] := by simp [publishChart, hn]
    rw [hpub]
    exact ⟨List.Pairwise.nil, List.Pairwise.nil, fun _ i => absurd i.isLt (by simp),
      fun _ i => absurd i.isLt (by simp)⟩
  | ok bars =>
    have hbars : normBars k records = bars := by simp [normBars, hn]
    have hts : bars.Pairwise (fun a b => a.ts < b.ts) := hbars ▸ normBars_pairwise_ts k records
    have hord : ∀ (j : Nat) (hj : j < bars.length), bars[j].ordinal = j := by
      intro j hj
      have := normBars_ordinal k records
      rw [hbars] at this
      exact this j hj
    have hpw_ord : bars.Pairwise (fun a b => a.ordinal < b.ordinal) := by
      rw [List.pairwise_iff_getElem]
      intro a b ha hb hab
      rw [hord a ha, hord b hb]
      exact hab
    by_cases hk : k = PeriodKind.tick
    · subst hk
      have hpub : publishChart PeriodKind.tick records =
          bars.filter (fun b => b.Close.isSome && b.Volume.isSome) := by
        simp [publishChart, hn]
      rw [hpub]
      refine ⟨hts.sublist (List.filter_sublist bars),
        hpw_ord.sublist (List.filter_sublist bars), fun hne => absurd rfl hne, fun hall => ?_⟩
      rw [hbars] at hall
      have hfe : bars.filter (fun b => b.Close.isSome && b.Volume.isSome) = bars :=
        List.filter_eq_self.mpr (fun b hb => by
          rw [Bool.and_eq_true]
          exact ⟨(hall b hb).1, (hall b hb).2⟩)
      rw [hfe]
      intro i
      rw [List.get_eq_getElem]
      exact hord i.val i.isLt
    · by_cases hlen : (calculate_indicators bars).length = bars.length
      · have hpub : publishChart k records =
            attachOrdinals (calculate_indicators bars) bars := by
          simp [publishChart, hn, hk, hlen]
        have hproj : (attachOrdinals (calculate_indicators bars) bars).map tsOrd =
            bars.map tsOrd :=
          attachOrdinals_map_tsOrd _ _ (calculate_indicators_map_tsOrd bars hlen)
        rw [hpub]
        exact ⟨pairwise_of_map_tsOrd (fun p q => p.1 < q.1) hproj hts,
          pairwise_of_map_tsOrd (fun p q => p.2 < q.2) hproj hpw_ord,
          fun _ => dense_of_map_tsOrd hproj hord,
          fun _ => dense_of_map_tsOrd hproj hord⟩
      · have hpub : publishChart k records = [] := by
          simp [publishChart, hn, hk, hlen]
        rw [hpub]
        exact ⟨List.Pairwise.nil, List.Pairwise.nil, fun _ i => absurd i.isLt (by simp),
          fun _ i => absurd i.isLt (by simp)⟩

/-- C2 witness input: two well-formed daily records. -/
def c2okRecords : List RawRecord :=
  [{ dt := some "20240102", open_pric := some "90", high_pric := some "110",
     low_pric := some "85", cur_prc := some "100", trde_qty := some "1000" },
   { dt := some "20240103", open_pric := some "100", high_pric := some "120",
     low_pric := some "95", cur_prc := some "110", trde_qty := some "1500" }]

/-- C2 witness: the amended theorem applied at a concrete daily series,
discharging both hypotheses. -/
theorem c2_witness :
    (publishChart PeriodKind.ohlcv c2okRecords).Pairwise (fun a b => a.ts < b.ts) ∧
    ordinalsDense (publishChart PeriodKind.ohlcv c2okRecords) ∧
    ordinalsDense (publishChart PeriodKind.ohlcv c2okRecords) :=
  ⟨(c2_published_ordinals_and_timestamps PeriodKind.ohlcv c2okRecords).1,
   (c2_published_ordinals_and_timestamps PeriodKind.ohlcv c2okRecords).2.2.1 (by decide),
   (c2_published_ordinals_and_timestamps PeriodKind.ohlcv c2okRecords).2.2.2 (by decide)⟩

/-- C5: after sorting parsed rows ascending by timestamp, deduplication
keeps exactly one row per timestamp — the last occurrence in the post-sort
order — and preserves the relative order of the survivors (so rows with
unique timestamps pass through unchanged).  The second conjunct pins the
survivor for every timestamp `t` to the last row carrying `t` in the
sorted order (the first match in the reversed list). -/
theorem c5_dedup_keeps_last_occurrence (k : PeriodKind) (records : List RawRecord) :
    ((dedupedRows k records).map Prod.fst).Nodup ∧
    (∀ t : Nat, (dedupedRows k records).find? (fun r => r.1 == t) =
      (sortedRows k records).reverse.find? (fun r => r.1 == t)) ∧
    List.Sublist (dedupedRows k records) (sortedRows k records) :=
  ⟨List.pairwise_map.mpr (keepLast_pairwise_ne (sortedRows k records)),
   fun t => keepLast_find (sortedRows k records) t,
   keepLast_sublist (sortedRows k records)⟩

/-- C8 supporting input: a single tick record whose timestamp cell does
not parse. -/
def c8records : List RawRecord :=
  [{ cntr_tm := some "garbage", cur_prc := some "100", trde_qty := some "10" }]

/-- C8: when the required columns are present but, after dropping the rows
whose timestamps fail to parse, zero rows remain, normalization fails with
the `DataError` for "no parseable timestamps" (the `ValueError` of chart.py
line 204), and the loading entry point publishes an empty series instead
of raising — the current data is that same empty series. -/
theorem c8_no_parseable_timestamps (k : PeriodKind) (records : List RawRecord)
    (hcols : hasCol records (timeField k) ∧ hasCol records RawRecord.cur_prc ∧
      hasCol records RawRecord.trde_qty)
    (hnone : parsedRows k records = []) :
    normalizeChart k records = .error .noValidDates ∧ publishChart k records = [] := by
  have hn : normalizeChart k records = .error .noValidDates := by
    unfold normalizeChart
    rw [if_neg (not_not_intro ⟨hcols.1, hcols.2.1, hcols.2.2⟩), if_pos hnone]
  exact ⟨hn, by simp [publishChart, hn]⟩

/-- C8 witness: the theorem applied at a concrete one-record input with an
unparseable timestamp. -/
theorem c8_witness :
    normalizeChart PeriodKind.tick c8records = .error .noValidDates ∧
    publishChart PeriodKind.tick c8records = [] :=
  c8_no_parseable_timestamps PeriodKind.tick c8records (by decide) (by decide)

/-- C9: normalization is deterministic on its input — running the
normalization stage on equal raw record lists with the same period kind
produces identical canonical output.  The stage is a pure function of the
record list and the period kind (chart.py lines 139-259 read nothing
else), so equal inputs give equal outputs. -/
theorem c9_normalize_deterministic (k : PeriodKind) (r1 r2 : List RawRecord)
    (h : r1 = r2) : normalizeChart k r1 = normalizeChart k r2 := by
  rw [h]

/-- C9 supporting input: two well-formed minute records. -/
def c9records : List RawRecord :=
  [{ cntr_tm := some "20240102100000", open_pric := some "90", high_pric := some "110",
     low_pric := some "85", cur_prc := some "100", trde_qty := some "1000" },
   { cntr_tm := some "20240102100100", open_pric := some "100", high_pric := some "120",
     low_pric := some "95", cur_prc := some "110", trde_qty := some "1500" }]

/-- C9 witness: two runs of the normalizer on (syntactically) equal
concrete inputs produce the same output. -/
theorem c9_witness :
    c9records = c9records ∧
    normalizeChart PeriodKind.minute c9records = normalizeChart PeriodKind.minute c9records :=
  ⟨rfl, c9_normalize_deterministic PeriodKind.minute c9records c9records rfl⟩

/-! ## Bulk series fetcher (src/core/api/kiwoom_chart.py)

`KiwoomChartAPI._fetch_chart_data` drives `KiwoomAPI._api_request` in a
loop.  The request client is a collaborator here; one logical call of it
is modelled as an oracle from the call number and the forwarded
continuation headers to the `(response_json, next_key, cont_yn)` triple it
returns. -/

/-- One value of the response JSON map: either a list of records or some
other (non-list) JSON value; `isinstance(data_list, list)` distinguishes
exactly these (kiwoom_chart.py line 52). -/
inductive ChartField
  | list (records : List RawRecord)
  | scalar
deriving DecidableEq

/-- The parts of a response body that `_fetch_chart_data` and
`_extract_chart_data` read: the `return_code` field (absent ⇒ `none`) and
the keyed fields probed for the record list. -/
structure ChartResponse where
  return_code : Option Int := none
  fields : List (String × ChartField) := []
deriving DecidableEq

/-- `response_data.get(key)`. -/
def getField (resp : ChartResponse) (key : String) : Option ChartField :=
  (resp.fields.find? (fun kv => kv.1 == key)).map (fun kv => kv.2)

/-- `RESPONSE_DATA_KEYS` (kiwoom_chart.py lines 24-32), keyed by API id;
an unknown id contributes only the fallback list. -/
def RESPONSE_DATA_KEYS (api_id : String) : List String :=
  if api_id = "ka10081" then ["stk_dt_pole_chart_qry", "output1", "output"]
  else if api_id = "ka10082" then
    ["stk_wk_pole_chart_qry", "stk_stk_pole_chart_qry", "output1", "output"]
  else if api_id = "ka10083" then ["stk_mth_pole_chart_qry", "output1", "output"]
  else if api_id = "ka10094" then ["stk_yr_pole_chart_qry", "output1", "output"]
  else if api_id = "ka10080" then ["stk_min_pole_chart_qry", "output1", "output"]
  else if api_id = "ka10079" then ["stk_tic_chart_qry", "output1", "output"]
  else []

/-- `RESPONSE_DATA_KEYS["fallback"]`. -/
def FALLBACK_KEYS : List String := ["output", "chart_data", "output1", "chart_output"]

/-- Probe the candidate keys in order; the first whose value is a list
wins (kiwoom_chart.py lines 50-54). -/
def firstListField (resp : ChartResponse) : List String → Option (List RawRecord)
  | [] => none
  | key :: keys =>
    match getField resp key with
    | some (ChartField.list rs) => some rs
    | _ => firstListField resp keys

/-- `_extract_chart_data` (kiwoom_chart.py lines 41-59): reject a response
whose `return_code` is not 0, then probe the per-id keys followed by the
fallback keys. -/
def extractChartData (api_id : String) (resp : ChartResponse) : Option (List RawRecord) :=
  if resp.return_code ≠ some 0 then none
  else firstListField resp (RESPONSE_DATA_KEYS api_id ++ FALLBACK_KEYS)

/-- The triple one `_api_request` call hands back to the loop. -/
structure ApiPage where
  response : ChartResponse
  next_key : String := ""
  cont_yn : String := "N"

def MAX_REQUESTS : Nat := 10

def MAX_TOTAL_DATA : Nat := 5000

/-- The `while` loop of `_fetch_chart_data` (kiwoom_chart.py lines 70-129).
`env i cy nk` is the result of the `i`-th (0-based) `_api_request` call,
made with continuation headers `cy`/`nk`.  Returns the accumulated
`all_data` and the number of request-client calls made.  Stop conditions in
source order: a non-zero `return_code` (line 91), a missing or empty
extracted list (`if data_list:`, line 107), `cont_yn != Y` (line 121), the
requested count reached (line 124), and the `MAX_TOTAL_DATA` cap —
checked only after extending (line 127).  The `while request_count <
MAX_REQUESTS` guard is kept literally; the structural `fuel` argument only
bounds the recursion and never fires first when the loop starts with
`fuel = MAX_REQUESTS` and `request_count = 0` (both exits return the same
value, so with those arguments the function computes the loop exactly). -/
def fetchChartDataLoop (env : Nat → String → String → ApiPage) (api_id : String)
    (count : Option Nat) :
    Nat → List RawRecord → String → String → Nat → List RawRecord × Nat
  | 0, all_data, _, _, request_count => (all_data, request_count)
  | fuel + 1, all_data, cont_yn, next_key, request_count =>
    if request_count < MAX_REQUESTS then
      if (env request_count cont_yn next_key).response.return_code ≠ some 0 then
        (all_data, request_count + 1)
      else
        match extractChartData api_id (env request_count cont_yn next_key).response with
        | some (r :: rs) =>
          if (env request_count cont_yn next_key).cont_yn ≠ "Y" then
            (all_data ++ (r :: rs), request_count + 1)
          else
            match count with
            | some c =>
              if (all_data ++ (r :: rs)).length ≥ c then
                (all_data ++ (r :: rs), request_count + 1)
              else if (all_data ++ (r :: rs)).length ≥ MAX_TOTAL_DATA then
                (all_data ++ (r :: rs), request_count + 1)
              else
                fetchChartDataLoop env api_id count fuel (all_data ++ (r :: rs))
                  (env request_count cont_yn next_key).cont_yn
                  (env request_count cont_yn next_key).next_key (request_count + 1)
            | none =>
              if (all_data ++ (r :: rs)).length ≥ MAX_TOTAL_DATA then
                (all_data ++ (r :: rs), request_count + 1)
              else
                fetchChartDataLoop env api_id count fuel (all_data ++ (r :: rs))
                  (env request_count cont_yn next_key).cont_yn
                  (env request_count cont_yn next_key).next_key (request_count + 1)
        | _ => (all_data, request_count + 1)
    else (all_data, request_count)

/-- `_fetch_chart_data` (kiwoom_chart.py lines 61-145): run the loop from
an empty accumulation with headers `N` and an empty continuation key,
then, when a count was requested and the accumulation exceeds it, keep the
first `count` records (line 143). -/
def fetchChartData (env : Nat → String → String → ApiPage) (api_id : String)
    (count : Option Nat) : List RawRecord × Nat :=
  match count with
  | some c =>
    if (fetchChartDataLoop env api_id count MAX_REQUESTS [] "N" "" 0).1.length > c then
      ((fetchChartDataLoop env api_id count MAX_REQUESTS [] "N" "" 0).1.take c,
       (fetchChartDataLoop env api_id count MAX_REQUESTS [] "N" "" 0).2)
    else fetchChartDataLoop env api_id count MAX_REQUESTS [] "N" "" 0
  | none => fetchChartDataLoop env api_id count MAX_REQUESTS [] "N" "" 0

theorem fetchChartDataLoop_bounds (env : Nat → String → String → ApiPage) (api_id : String)
    (count : Option Nat) (P : Nat)
    (hP : ∀ i cy nk, ((extractChartData api_id (env i cy nk).response).getD []).length ≤ P) :
    ∀ (fuel : Nat) (all_data : List RawRecord) (cy nk : String) (rc : Nat),
      rc ≤ MAX_REQUESTS → all_data.length < MAX_TOTAL_DATA →
      (fetchChartDataLoop env api_id count fuel all_data cy nk rc).2 ≤ MAX_REQUESTS ∧
      (fetchChartDataLoop env api_id count fuel all_data cy nk rc).1.length <
        MAX_TOTAL_DATA + P := by
  intro fuel
  induction fuel with
  | zero =>
    intro all_data cy nk rc hrc hlen
    exact ⟨by dsimp only [fetchChartDataLoop]; omega,
      by dsimp only [fetchChartDataLoop]; omega⟩
  | succ fuel ih =>
    intro all_data cy nk rc hrc hlen
    rw [fetchChartDataLoop]
    by_cases hlt : rc < MAX_REQUESTS
    · rw [if_pos hlt]
      have hpage := hP rc cy nk
      split
      · exact ⟨by dsimp only; omega, by dsimp only; omega⟩
      · split
        · rename_i r rs heq
          rw [heq] at hpage
          simp only [Option.getD_some, List.length_cons] at hpage
          split
          · refine ⟨by dsimp only; omega, ?_⟩
            dsimp only
            simp only [List.length_append, List.length_cons]
            omega
          · split
            · split
              · refine ⟨by dsimp only; omega, ?_⟩
                dsimp only
                simp only [List.length_append, List.length_cons]
                omega
              · split
                · refine ⟨by dsimp only; omega, ?_⟩
                  dsimp only
                  simp only [List.length_append, List.length_cons]
                  omega
                · rename_i hcap
                  apply ih
                  · omega
                  · simp only [List.length_append, List.length_cons] at hcap ⊢
                    omega
            · split
              · refine ⟨by dsimp only; omega, ?_⟩
                dsimp only
                simp only [List.length_append, List.length_cons]
                omega
              · rename_i hcap
                apply ih
                · omega
                · simp only [List.length_append, List.length_cons] at hcap ⊢
                  omega
        · exact ⟨by dsimp only; omega, by dsimp only; omega⟩
    · rw [if_neg hlt]
      exact ⟨by dsimp only; omega, by dsimp only; omega⟩

theorem fetchChartData_requests (env : Nat → String → String → ApiPage) (api_id : String)
    (count : Option Nat) :
    (fetchChartData env api_id count).2 = (fetchChartDataLoop env api_id count MAX_REQUESTS [] "N" "" 0).2 := by
  unfold fetchChartData
  cases count with
  | none => rfl
  | some c =>
    dsimp only
    split
    · rfl
    · rfl

/-- C3 counterexample input: one daily record. -/
def c3record : RawRecord :=
  { dt := some "20240101", open_pric := some "1", high_pric := some "1",
    low_pric := some "1", cur_prc := some "1", trde_qty := some "1" }

/-- C3 counterexample page: 2600 records, continuation flag `Y`. -/
def c3page : ApiPage :=
  { response :=
      { return_code := some 0,
        fields := [("stk_dt_pole_chart_qry",
          ChartField.list (List.replicate 2600 c3record))] },
    next_key := "carry", cont_yn := "Y" }

/-- The constant page oracle for the C3 counterexample. -/
def c3env : Nat → String → String → ApiPage := fun _ _ _ => c3page

/-- The record list carried by each C3 counterexample page, in head-tail
form. -/
def c3list : List RawRecord := c3record :: List.replicate 2599 c3record

theorem c3page_extract : extractChartData "ka10081" c3page.response = some c3list := by
  have hsplit : List.replicate 2600 c3record = c3list := by
    rw [c3list, show (2600 : Nat) = 2599 + 1 from rfl, List.replicate_succ]
  rw [← hsplit]
  rfl

theorem c3list_cons : c3list = c3record :: List.replicate 2599 c3record := rfl

theorem c3list_length : c3list.length = 2600 := by
  rw [c3list_cons, List.length_cons, List.length_replicate]

theorem c3env_step (fuel : Nat) (all_data : List RawRecord) (cy nk : String) (rc : Nat)
    (hrc : rc < MAX_REQUESTS)
    (hlen : ¬ (all_data ++ c3list).length ≥ MAX_TOTAL_DATA) :
    fetchChartDataLoop c3env "ka10081" none (fuel + 1) all_data cy nk rc =
      fetchChartDataLoop c3env "ka10081" none fuel (all_data ++ c3list) "Y" "carry" (rc + 1) := by
  rw [fetchChartDataLoop, if_pos hrc]
  simp only [c3env]
  rw [if_neg (by decide : ¬ c3page.response.return_code ≠ some 0)]
  rw [c3page_extract, c3list_cons]
  dsimp only
  rw [if_neg (by decide : ¬ c3page.cont_yn ≠ "Y")]
  rw [if_neg (by rw [← c3list_cons]; exact hlen)]
  rfl

theorem c3env_stop (fuel : Nat) (all_data : List RawRecord) (cy nk : String) (rc : Nat)
    (hrc : rc < MAX_REQUESTS)
    (hlen : (all_data ++ c3list).length ≥ MAX_TOTAL_DATA) :
    fetchChartDataLoop c3env "ka10081" none (fuel + 1) all_data cy nk rc =
      (all_data ++ c3list, rc + 1) := by
  rw [fetchChartDataLoop, if_pos hrc]
  simp only [c3env]
  rw [if_neg (by decide : ¬ c3page.response.return_code ≠ some 0)]
  rw [c3page_extract, c3list_cons]
  dsimp only
  rw [if_neg (by decide : ¬ c3page.cont_yn ≠ "Y")]
  rw [if_pos (by rw [← c3list_cons]; exact hlen)]

/-- C3, claim as stated, is false: with 2600-record pages the accumulation
holds 2600 after the first request (< 5000, so the loop continues) and
5200 after the second — more than `MAX_TOTAL_DATA` — and with no requested
count the fetcher returns all 5200 accumulated records: the cap is
checked only after extending, so the accumulation exceeds 5000 before the
final truncation step. -/
theorem c3_counterexample :
    (fetchChartData c3env "ka10081" none).1.length = 5200 ∧
    MAX_TOTAL_DATA < (fetchChartData c3env "ka10081" none).1.length := by
  have hrun : fetchChartData c3env "ka10081" none = (([] ++ c3list) ++ c3list, 2) := by
    show fetchChartDataLoop c3env "ka10081" none MAX_REQUESTS [] "N" "" 0 = _
    rw [show MAX_REQUESTS = 9 + 1 from rfl]
    rw [c3env_step 9 [] "N" "" 0 (by decide)
      (by simp only [List.nil_append, c3list_length]; decide)]
    rw [show (9 : Nat) = 8 + 1 from rfl]
    rw [c3env_stop 8 ([] ++ c3list) "Y" "carry" 1 (by decide)
      (by simp only [List.length_append, List.nil_append, c3list_length]; decide)]
  rw [hrun]
  simp only [List.length_append, List.nil_append, c3list_length]
  refine ⟨by norm_num, by norm_num [MAX_TOTAL_DATA]⟩

/-- C3 (amended): the bulk fetch loop issues at most `MAX_REQUESTS` (10)
request-client calls, and it issues a further request only while the
accumulation is below `MAX_TOTAL_DATA` (5000) — so when every page holds
at most `P` records the accumulation never exceeds `4999 + P`: it can
pass 5000 only by the records of the final page (the cap is checked after
extending, kiwoom_chart.py line 127). -/
theorem c3_loop_bounds (env : Nat → String → String → ApiPage) (api_id : String)
    (count : Option Nat) (P : Nat)
    (hP : ∀ i cy nk, ((extractChartData api_id (env i cy nk).response).getD []).length ≤ P) :
    (fetchChartData env api_id count).2 ≤ MAX_REQUESTS ∧
    (fetchChartDataLoop env api_id count MAX_REQUESTS [] "N" "" 0).1.length <
      MAX_TOTAL_DATA + P := by
  have h := fetchChartDataLoop_bounds env api_id count P hP MAX_REQUESTS [] "N" "" 0
    (by omega) (by decide)
  exact ⟨(fetchChartData_requests env api_id count) ▸ h.1, h.2⟩

/-- C3 witness page: a single record per page. -/
def c3wpage : ApiPage :=
  { response :=
      { return_code := some 0,
        fields := [("stk_tic_chart_qry", ChartField.list [c3record])] },
    next_key := "n", cont_yn := "Y" }

/-- C3 witness: the amended bounds at a concrete single-record-page
oracle (`P = 1`). -/
theorem c3_witness :
    (fetchChartData (fun _ _ _ => c3wpage) "ka10079" none).2 ≤ MAX_REQUESTS ∧
    (fetchChartDataLoop (fun _ _ _ => c3wpage) "ka10079" none MAX_REQUESTS [] "N" "" 0).1.length <
      MAX_TOTAL_DATA + 1 :=
  c3_loop_bounds (fun _ _ _ => c3wpage) "ka10079" none 1
    (fun i cy nk =>
      show ((extractChartData "ka10079" c3wpage.response).getD []).length ≤ 1 by decide)

/-- C4: when a count `n` is requested and the loop accumulates more than
`n` records, the fetcher returns exactly the first `n` accumulated records
(`all_data[:count]`, kiwoom_chart.py line 143) — a prefix of the
accumulation, in accumulated (newest-first) order, of length exactly `n`;
with at most `n` accumulated, or with no requested count, the accumulation
is returned untruncated. -/
theorem c4_truncation (env : Nat → String → String → ApiPage) (api_id : String)
    (count : Option Nat) :
    (∀ n, count = some n →
      ((fetchChartDataLoop env api_id count MAX_REQUESTS [] "N" "" 0).1.length > n →
        (fetchChartData env api_id count).1 =
          (fetchChartDataLoop env api_id count MAX_REQUESTS [] "N" "" 0).1.take n ∧
        (fetchChartData env api_id count).1.length = n) ∧
      ((fetchChartDataLoop env api_id count MAX_REQUESTS [] "N" "" 0).1.length ≤ n →
        (fetchChartData env api_id count).1 =
          (fetchChartDataLoop env api_id count MAX_REQUESTS [] "N" "" 0).1)) ∧
    (count = none →
      (fetchChartData env api_id count).1 =
        (fetchChartDataLoop env api_id count MAX_REQUESTS [] "N" "" 0).1) := by
  constructor
  · intro n hc
    subst hc
    constructor
    · intro hgt
      unfold fetchChartData
      dsimp only
      rw [if_pos hgt]
      refine ⟨rfl, ?_⟩
      dsimp only
      rw [List.length_take]
      omega
    · intro hle
      unfold fetchChartData
      dsimp only
      rw [if_neg (by omega)]
  · intro hc
    subst hc
    rfl

/-- C4 witness page: three records per page, continuation `Y`. -/
def c4page : ApiPage :=
  { response :=
      { return_code := some 0,
        fields := [("stk_tic_chart_qry", ChartField.list [c3record, c3record, c3record])] },
    next_key := "n", cont_yn := "Y" }

/-- C4 witness: with `count = 4` and 3-record pages the loop accumulates
6 records and the fetcher returns their 4-record prefix. -/
theorem c4_witness :
    (fetchChartData (fun _ _ _ => c4page) "ka10079" (some 4)).1 =
      (fetchChartDataLoop (fun _ _ _ => c4page) "ka10079" (some 4) MAX_REQUESTS
        [] "N" "" 0).1.take 4 ∧
    (fetchChartData (fun _ _ _ => c4page) "ka10079" (some 4)).1.length = 4 :=
  ((c4_truncation (fun _ _ _ => c4page) "ka10079" (some 4)).1 4 rfl).1 (by decide)

/-! ## Credential manager and request client (src/core/api/kiwoom.py)

`KiwoomAPI` holds the credential as mutable fields (`access_token`,
`refresh_token`, `token_expires_at`, and the persisted token file).  The
state is threaded explicitly; the network is an oracle (`NetEnv`); a
propagated Python exception is an explicit outcome.  `token_expires_at`
only ever takes the values `0` and `float(inf)` in the source, modelled
as a Boolean `token_expires_inf`. -/

/-- The persisted token file (written by `_save_token`, kiwoom.py
lines 104-119): a JSON object whose fields may be absent or null. -/
structure TokenFile where
  token : Option String
  refresh_token : Option String
  is_real : Option Bool
  api_key : Option String
deriving DecidableEq

/-- Constructor configuration: `api_key`, `api_secret` (either may be
`None` or empty) and the live/paper mode flag `is_real`. -/
structure ApiConfig where
  api_key : Option String
  api_secret : Option String
  is_real : Bool
deriving DecidableEq

/-- One HTTPS POST to an API endpoint, as recorded for the auditing of
which token and continuation headers each network call carried
(kiwoom.py lines 243-252). -/
structure SentCall where
  api_id : String
  token : String
  cont_yn : String
  next_key : String
deriving DecidableEq

/-- The mutable client state: the in-memory credential, the persisted
file, and call counters/traces for the three kinds of network calls. -/
structure ApiState where
  access_token : Option String
  refresh_token : Option String
  token_expires_inf : Bool
  token_file : Option TokenFile
  calls : List SentCall
  issues : Nat
  revokes : Nat
deriving DecidableEq

/-- Python truthiness of an optional string (`if self.access_token:`,
`if not access_token:`): `None` and the empty string are falsy. -/
def pyTruthy : Option String → Bool
  | none => false
  | some s => !(s == "")

/-- Outcome of one POST to the token-issuance endpoint
(`_get_access_token`, kiwoom.py lines 135-199): either the request
raises / returns non-200 / has an undecodable body (all of which the
source turns into a raised `ValueError`), or it returns 200 with a body
carrying `token` and `refresh_token` (absent fields default to the empty
string, line 174). -/
inductive IssueOutcome
  | fails
  | succeeds (token refresh_tok : String)

/-- Outcome of one POST to an API endpoint (`_api_request`, kiwoom.py
line 252): a raised `requests` exception, or a response with an HTTP
status, a decodable-JSON flag, an optional `return_code` body field and
the continuation response headers. -/
inductive SendOutcome
  | exn
  | resp (status : Nat) (jsonOk : Bool) (return_code : Option Int)
      (next_key cont_yn : String)

/-- Outcome of the POST to the revoke endpoint (`revoke_token`,
kiwoom.py line 686). -/
inductive RevokeOutcome
  | exn
  | resp (status : Nat) (jsonOk : Bool)

/-- The network/filesystem oracle: the `n`-th issuance call's outcome,
the `n`-th API-endpoint call's outcome, the revoke call's outcome, and
whether `os.remove` on the token file fails. -/
structure NetEnv where
  issue : Nat → IssueOutcome
  send : Nat → SendOutcome
  revoke : RevokeOutcome
  removeFileFails : Bool

/-- `_get_access_token` (kiwoom.py lines 135-199).  An empty key or
secret raises before any network call (lines 160-162); a non-200 status
or exception raises `ValueError` (lines 186-199) leaving the credential
unchanged; on 200 the in-memory credential is replaced wholesale, the
expiry set to infinity, and the file saved (`_save_token`,
lines 104-119).  `Except.error` carries the state at the raise. -/
def getAccessToken (cfg : ApiConfig) (env : NetEnv) (st : ApiState) :
    Except ApiState ApiState :=
  if ¬ pyTruthy cfg.api_key ∨ ¬ pyTruthy cfg.api_secret then .error st
  else
    match env.issue st.issues with
    | .fails => .error { st with issues := st.issues + 1 }
    | .succeeds tok rtok =>
      .ok { st with
        access_token := some tok
        refresh_token := some rtok
        token_expires_inf := true
        token_file := some ⟨some tok, some rtok, some cfg.is_real, cfg.api_key⟩
        issues := st.issues + 1 }

/-- `_ensure_token` (kiwoom.py lines 121-133): return the held token if
truthy, otherwise issue a new one and return it (possibly the empty
string when the issuance body lacked a `token` field). -/
def ensureToken (cfg : ApiConfig) (env : NetEnv) (st : ApiState) :
    Except ApiState (String × ApiState) :=
  if pyTruthy st.access_token then .ok (st.access_token.getD "", st)
  else
    match getAccessToken cfg env st with
    | .error st2 => .error st2
    | .ok st2 => .ok (st2.access_token.getD "", st2)

/-- The API ids `_get_endpoint_by_api_id` knows (kiwoom.py
lines 201-220). -/
def knownApiId (api_id : String) : Bool :=
  api_id == "ka10095" || api_id == "ka10079" || api_id == "ka10080" ||
  api_id == "ka10081" || api_id == "ka10082" || api_id == "ka10083" ||
  api_id == "ka10094"

/-- What `_api_request` hands back: either a propagated exception
(`raised`), or the triple `(response_json, next_key, cont_yn)` reduced to
the parts callers read — the body's `return_code` field (the error dict
of line 231 carries `-1`, the empty dict of lines 275/279/309 carries
none) — together with the state after the call. -/
inductive ApiReqOut
  | raised (st : ApiState)
  | ret (return_code : Option Int) (next_key : String) (cont_yn : String) (st : ApiState)

/-- The state component of an `_api_request` outcome. -/
def ApiReqOut.state : ApiReqOut → ApiState
  | .raised st => st
  | .ret _ _ _ st => st

/-- `_api_request` (kiwoom.py lines 222-309), with `retries = 1` on the
outer call as in the source default.  Control flow per the source:

* unknown API id ⇒ error dict, no network call (lines 227-231);
* `_ensure_token` outside the `try` (line 237): an issuance `ValueError`
  propagates; a falsy token returns the error dict (lines 238-241);
* a `requests` exception ⇒ `({}, empty, ERR)` (lines 307-309);
* JSON decode failure: non-200 ⇒ `({}, empty, ERR)`; 200 ⇒ empty payload
  with the continuation headers forwarded (lines 271-279);
* `return_code` defaults to 0 on HTTP 200, else -1 (line 282);
* on 200 with `return_code` 3 or 8005 and retries left: invalidate the
  token and expiry (lines 288-289), force a reissue via `_ensure_token`
  (line 290; a `ValueError` raised there is not caught — only
  `RequestException` is), and retry exactly once with `retries = 0`
  (line 294); a falsy new token returns the error payload (line 297);
* 200 with `return_code` 0 ⇒ success with continuation headers;
  anything else ⇒ error return with continuation forced off
  (lines 300-305). -/
def apiRequest (cfg : ApiConfig) (env : NetEnv) (api_id : String)
    (cont_yn next_key : String) : Nat → ApiState → ApiReqOut
  | retries, st =>
    if ¬ knownApiId api_id then .ret (some (-1)) "" "ERR" st
    else
      match ensureToken cfg env st with
      | .error st1 => .raised st1
      | .ok (access_token, st1) =>
        if access_token == "" then .ret (some (-1)) "" "ERR" st1
        else
          match env.send st1.calls.length,
            { st1 with calls := st1.calls ++ [⟨api_id, access_token, cont_yn, next_key⟩] } with
          | .exn, st2 => .ret none "" "ERR" st2
          | .resp status jsonOk rc nk cy, st2 =>
            if ¬ jsonOk then
              if status ≠ 200 then .ret none "" "ERR" st2
              else .ret none nk cy st2
            else
              if status = 200 ∧ (rc.getD 0 = 3 ∨ rc.getD 0 = 8005) then
                match retries with
                | 0 =>
                  -- `retries > 0` fails: the auth-failure code falls through to
                  -- the non-success return of lines 302-305.
                  .ret rc "" "ERR" st2
                | retries2 + 1 =>
                  match ensureToken cfg env
                    { st2 with access_token := none, token_expires_inf := false } with
                  | .error st3 => .raised st3
                  | .ok (new_token, st3) =>
                    if !(new_token == "") then
                      apiRequest cfg env api_id cont_yn next_key retries2 st3
                    else .ret rc "" "ERR" st3
              else
                if status = 200 ∧ rc.getD 0 = 0 then
                  .ret rc nk cy st2
                else .ret rc "" "ERR" st2

/-- `_load_token` (kiwoom.py lines 65-102), applied to the persisted file
content (`none` models an absent file).  The source assigns
`self.access_token`/`self.refresh_token` from the file (lines 77-78)
**before** checking the saved mode (line 82) and API key (line 88); a
mismatch returns `False` without undoing those assignments.  When the
checks pass but the file has no token, the log line `self.access_token[:5]`
(line 93) raises `TypeError`, which the catch-all handler turns into
`False` (lines 100-102) — again leaving the assignments in place. -/
def loadToken (cfg : ApiConfig) (file : Option TokenFile) (st : ApiState) :
    Bool × ApiState :=
  match file with
  | none => (false, st)
  | some td =>
    if (td.is_real == some cfg.is_real) = false then
      (false, { st with access_token := td.token, refresh_token := td.refresh_token })
    else if (td.api_key == cfg.api_key) = false then
      (false, { st with access_token := td.token, refresh_token := td.refresh_token })
    else
      match td.token with
      | none => (false, { st with access_token := none, refresh_token := td.refresh_token })
      | some tok =>
        (true, { st with
          access_token := some tok
          refresh_token := td.refresh_token
          token_expires_inf := true })

/-- `revoke_token` (kiwoom.py lines 647-722).  No token held ⇒ trivially
`True` with no network call (lines 657-659); empty key or secret ⇒
`False` before the POST (lines 681-683); a `requests` exception or a
non-200 status ⇒ `False` with the in-memory credential and the file left
as they were (lines 709-722); a 200 whose body fails to decode raises
inside the `try` ⇒ `False`, nothing cleared; a decodable 200 clears the
in-memory token, expiry and refresh token, then deletes the file if it
exists — an `os.remove` failure is logged, not propagated, and does not
change the `True` result (lines 689-708). -/
def revokeToken (cfg : ApiConfig) (env : NetEnv) (st : ApiState) : Bool × ApiState :=
  if ¬ pyTruthy st.access_token then (true, st)
  else if ¬ pyTruthy cfg.api_key ∨ ¬ pyTruthy cfg.api_secret then (false, st)
  else
    match env.revoke, { st with revokes := st.revokes + 1 } with
    | .exn, st1 => (false, st1)
    | .resp status jsonOk, st1 =>
      if status = 200 then
        if ¬ jsonOk then (false, st1)
        else
          (true,
            { st1 with
              access_token := none
              token_expires_inf := false
              refresh_token := none
              token_file :=
                if st1.token_file.isSome ∧ ¬ env.removeFileFails then none
                else st1.token_file })
      else (false, st1)

theorem ensureToken_truthy (cfg : ApiConfig) (env : NetEnv) (st : ApiState) (tok : String)
    (ht : st.access_token = some tok) (htne : (tok == "") = false) :
    ensureToken cfg env st = .ok (tok, st) := by
  unfold ensureToken
  rw [ht]
  simp [pyTruthy, htne]

theorem ensureToken_issue (cfg : ApiConfig) (env : NetEnv) (st : ApiState)
    (t r : String)
    (hnone : st.access_token = none)
    (hkey : pyTruthy cfg.api_key = true) (hsec : pyTruthy cfg.api_secret = true)
    (hiss : env.issue st.issues = IssueOutcome.succeeds t r) :
    ensureToken cfg env st =
      .ok (t, { st with
        access_token := some t
        refresh_token := some r
        token_expires_inf := true
        token_file := some ⟨some t, some r, some cfg.is_real, cfg.api_key⟩
        issues := st.issues + 1 }) := by
  unfold ensureToken getAccessToken
  rw [hnone]
  rw [if_neg (by simp [pyTruthy])]
  rw [if_neg (by simp [hkey, hsec])]
  rw [hiss]
  rfl

theorem apiRequest_zero_state (cfg : ApiConfig) (env : NetEnv) (api_id : String)
    (cont_yn next_key : String) (st : ApiState) (tok : String)
    (hid : knownApiId api_id = true)
    (ht : st.access_token = some tok) (htne : (tok == "") = false) :
    (apiRequest cfg env api_id cont_yn next_key 0 st).state =
      { st with calls := st.calls ++ [⟨api_id, tok, cont_yn, next_key⟩] } := by
  rw [apiRequest]
  rw [if_neg (by simp [hid])]
  rw [ensureToken_truthy cfg env st tok ht htne]
  dsimp only
  rw [if_neg (by simp [htne])]
  cases hs : env.send st.calls.length with
  | exn => rfl
  | resp status jsonOk rc nk cy =>
    by_cases hj : jsonOk = true
    · subst hj
      dsimp only
      rw [if_neg (by simp)]
      by_cases hauth : status = 200 ∧ (rc.getD 0 = 3 ∨ rc.getD 0 = 8005)
      · rw [if_pos hauth]
        rfl
      · rw [if_neg hauth]
        by_cases hsucc : status = 200 ∧ rc.getD 0 = 0
        · rw [if_pos hsucc]
          rfl
        · rw [if_neg hsucc]
          rfl
    · have hjf : jsonOk = false := by
        cases jsonOk
        · rfl
        · exact absurd rfl hj
      subst hjf
      dsimp only
      rw [if_pos (by simp)]
      by_cases hs2 : status ≠ 200
      · rw [if_pos hs2]
        rfl
      · rw [if_neg hs2]
        rfl

/-- C1: for a logical request-client call holding token `t0`, a first
attempt that returns HTTP 200 with auth-failure return code 3 or 8005
invalidates the in-memory token, forces exactly one new issuance (the
`issues` counter grows by one), and repeats the call exactly once with the
newly issued token `t1`: exactly two endpoint calls are recorded — the
first carrying `t0`, the second carrying `t1 ≠ t0` — for **every** outcome
of the second attempt (the environment's second response is
unconstrained), because the retry runs with `retries = 0` and can never
retry again.  That the reissued token differs from the invalidated one
(`hfresh`) is a property of the token server, assumed here. -/
theorem c1_auth_failure_single_retry (cfg : ApiConfig) (env : NetEnv) (api_id : String)
    (cont_yn next_key : String) (st : ApiState) (t0 t1 r1 : String) (rc0 : Int)
    (nk0 cy0 : String)
    (hid : knownApiId api_id = true)
    (ht0 : st.access_token = some t0) (ht0ne : (t0 == "") = false)
    (hsend : env.send st.calls.length = SendOutcome.resp 200 true (some rc0) nk0 cy0)
    (hrc : rc0 = 3 ∨ rc0 = 8005)
    (hkey : pyTruthy cfg.api_key = true) (hsec : pyTruthy cfg.api_secret = true)
    (hiss : env.issue st.issues = IssueOutcome.succeeds t1 r1)
    (ht1ne : (t1 == "") = false) (hfresh : t1 ≠ t0) :
    (apiRequest cfg env api_id cont_yn next_key 1 st).state.calls =
      st.calls ++ [⟨api_id, t0, cont_yn, next_key⟩, ⟨api_id, t1, cont_yn, next_key⟩] ∧
    (apiRequest cfg env api_id cont_yn next_key 1 st).state.access_token = some t1 ∧
    (apiRequest cfg env api_id cont_yn next_key 1 st).state.issues = st.issues + 1 ∧
    t1 ≠ t0 := by
  have hstep : apiRequest cfg env api_id cont_yn next_key 1 st =
      apiRequest cfg env api_id cont_yn next_key 0
        { access_token := some t1
          refresh_token := some r1
          token_expires_inf := true
          token_file := some ⟨some t1, some r1, some cfg.is_real, cfg.api_key⟩
          calls := st.calls ++ [⟨api_id, t0, cont_yn, next_key⟩]
          issues := st.issues + 1
          revokes := st.revokes } := by
    conv_lhs => rw [apiRequest]
    rw [if_neg (by simp [hid])]
    rw [ensureToken_truthy cfg env st t0 ht0 ht0ne]
    dsimp only
    rw [if_neg (by simp [ht0ne])]
    rw [hsend]
    dsimp only
    rw [if_neg (by simp)]
    rw [if_pos ⟨rfl, by simpa using hrc⟩]
    rw [ensureToken_issue cfg env
      { access_token := none
        refresh_token := st.refresh_token
        token_expires_inf := false
        token_file := st.token_file
        calls := st.calls ++ [⟨api_id, t0, cont_yn, next_key⟩]
        issues := st.issues
        revokes := st.revokes } t1 r1 rfl hkey hsec hiss]
    dsimp only
    rw [if_pos (by simp [ht1ne])]
  rw [hstep,
    apiRequest_zero_state cfg env api_id cont_yn next_key _ t1 hid rfl ht1ne]
  refine ⟨?_, rfl, rfl, hfresh⟩
  simp

def c1cfg : ApiConfig := ⟨some "KEY", some "SECRET", true⟩

def c1st : ApiState := ⟨some "T0", some "R0", true, none, [], 0, 0⟩

def c1env : NetEnv :=
  ⟨fun _ => IssueOutcome.succeeds "T1" "R1",
   fun n => if n = 0 then SendOutcome.resp 200 true (some 8005) "k" "Y"
            else SendOutcome.resp 200 true (some 0) "" "N",
   RevokeOutcome.exn, false⟩

/-- C1 witness: the retry theorem at a concrete environment whose first
response carries return code 8005. -/
theorem c1_witness :
    (apiRequest c1cfg c1env "ka10081" "N" "" 1 c1st).state.calls =
      c1st.calls ++ [⟨"ka10081", "T0", "N", ""⟩, ⟨"ka10081", "T1", "N", ""⟩] ∧
    (apiRequest c1cfg c1env "ka10081" "N" "" 1 c1st).state.access_token = some "T1" ∧
    (apiRequest c1cfg c1env "ka10081" "N" "" 1 c1st).state.issues = c1st.issues + 1 ∧
    "T1" ≠ "T0" :=
  c1_auth_failure_single_retry c1cfg c1env "ka10081" "N" "" c1st "T0" "T1" "R1" 8005 "k" "Y"
    rfl rfl rfl rfl (Or.inr rfl) rfl rfl rfl rfl (by decide)

/-- The first response of a call does not carry an auth-failure return
code (3 or 8005 in the body's `return_code` field). -/
def noAuthFailCode : SendOutcome → Prop
  | .exn => True
  | .resp _ _ rc _ _ => rc ≠ some 3 ∧ rc ≠ some 8005

/-- C10 (amended): when a (truthy) token is already held, a request-client
call whose first response does not carry an auth-failure return code
leaves the credential state unchanged: the in-memory access token, refresh
token, token expiry and the persisted token file are the same after the
call as before it.  (The claim as stated fails when no token is held:
the `_ensure_token` step then issues and persists a new token even though
no auth-failure occurred — see the counterexample.) -/
theorem c10_no_auth_failure_frame (cfg : ApiConfig) (env : NetEnv) (api_id : String)
    (cont_yn next_key : String) (retries : Nat) (st : ApiState) (tok : String)
    (ht : st.access_token = some tok) (htne : (tok == "") = false)
    (hnf : noAuthFailCode (env.send st.calls.length)) :
    (apiRequest cfg env api_id cont_yn next_key retries st).state.access_token =
      st.access_token ∧
    (apiRequest cfg env api_id cont_yn next_key retries st).state.refresh_token =
      st.refresh_token ∧
    (apiRequest cfg env api_id cont_yn next_key retries st).state.token_expires_inf =
      st.token_expires_inf ∧
    (apiRequest cfg env api_id cont_yn next_key retries st).state.token_file =
      st.token_file := by
  rw [apiRequest]
  by_cases hid : knownApiId api_id = true
  · rw [if_neg (by simp [hid])]
    rw [ensureToken_truthy cfg env st tok ht htne]
    dsimp only
    rw [if_neg (by simp [htne])]
    cases hs : env.send st.calls.length with
    | exn => exact ⟨rfl, rfl, rfl, rfl⟩
    | resp status jsonOk rc nk cy =>
      rw [hs] at hnf
      simp only [noAuthFailCode] at hnf
      by_cases hj : jsonOk = true
      · subst hj
        dsimp only
        rw [if_neg (by simp)]
        have hnot : ¬ (status = 200 ∧ (rc.getD 0 = 3 ∨ rc.getD 0 = 8005)) := by
          rintro ⟨hs200, h35⟩
          cases rc with
          | none => simp at h35
          | some v =>
            simp only [Option.getD_some] at h35
            rcases h35 with rfl | rfl
            · exact hnf.1 rfl
            · exact hnf.2 rfl
        rw [if_neg hnot]
        by_cases hsucc : status = 200 ∧ rc.getD 0 = 0
        · rw [if_pos hsucc]
          exact ⟨rfl, rfl, rfl, rfl⟩
        · rw [if_neg hsucc]
          exact ⟨rfl, rfl, rfl, rfl⟩
      · have hjf : jsonOk = false := by
          cases jsonOk
          · rfl
          · exact absurd rfl hj
        subst hjf
        dsimp only
        rw [if_pos (by simp)]
        by_cases hs2 : status ≠ 200
        · rw [if_pos hs2]
          exact ⟨rfl, rfl, rfl, rfl⟩
        · rw [if_neg hs2]
          exact ⟨rfl, rfl, rfl, rfl⟩
  · rw [if_pos (by simp [hid])]
    exact ⟨rfl, rfl, rfl, rfl⟩

def c10cfg : ApiConfig := ⟨some "KEY", some "SECRET", true⟩

def c10st : ApiState := ⟨none, none, false, none, [], 0, 0⟩

def c10env : NetEnv :=
  ⟨fun _ => IssueOutcome.succeeds "T1" "R1",
   fun _ => SendOutcome.resp 200 true (some 0) "" "N",
   RevokeOutcome.exn, false⟩

/-- C10, claim as stated, is false: with no token held, a call whose first
(and only) response carries return code 0 — no auth failure — still
rewrites the credential: `_ensure_token` issues a token and `_save_token`
persists it, so both the in-memory access token and the token file differ
after the call. -/
theorem c10_counterexample :
    noAuthFailCode (c10env.send c10st.calls.length) ∧
    (apiRequest c10cfg c10env "ka10081" "N" "" 1 c10st).state.access_token ≠
      c10st.access_token ∧
    (apiRequest c10cfg c10env "ka10081" "N" "" 1 c10st).state.token_file ≠
      c10st.token_file :=
  ⟨⟨by decide, by decide⟩, by decide, by decide⟩

def c10wst : ApiState := ⟨some "TOK", some "R", true, none, [], 0, 0⟩

/-- C10 witness: the frame theorem at a concrete state that holds a token
and an environment answering with return code 0. -/
theorem c10_witness :
    (apiRequest c10cfg c10env "ka10081" "N" "" 1 c10wst).state.access_token =
      c10wst.access_token ∧
    (apiRequest c10cfg c10env "ka10081" "N" "" 1 c10wst).state.refresh_token =
      c10wst.refresh_token ∧
    (apiRequest c10cfg c10env "ka10081" "N" "" 1 c10wst).state.token_expires_inf =
      c10wst.token_expires_inf ∧
    (apiRequest c10cfg c10env "ka10081" "N" "" 1 c10wst).state.token_file =
      c10wst.token_file :=
  c10_no_auth_failure_frame c10cfg c10env "ka10081" "N" "" 1 c10wst "TOK" rfl rfl
    ⟨by decide, by decide⟩

def c6cfg : ApiConfig := ⟨some "KEY", some "SECRET", true⟩

/-- C6 failing input: a persisted file written in paper mode
(`is_real = false`) while the current session runs live
(`is_real = true`), carrying a stale token. -/
def c6file : TokenFile := ⟨some "STALE", some "R0", some false, some "KEY"⟩

def c6st : ApiState := ⟨none, none, false, none, [], 0, 0⟩

/-- An environment whose issuance endpoint always fails — demonstrating
that the stale token is served without any reissue attempt. -/
def c6env : NetEnv := ⟨fun _ => IssueOutcome.fails, fun _ => SendOutcome.exn,
  RevokeOutcome.exn, false⟩

/-- C6: the claim is right and the code is wrong.  `_load_token` does
return not-ok on a mode mismatch, but it has already copied the file's
tokens into memory (kiwoom.py lines 77-78 precede the check at line 82)
and never clears them, even though its own log message announces a
reissue.  Evaluated at the failing input: `load` returns `False`, yet the
stale access and refresh tokens from the mismatched file remain in
memory, and the next `_ensure_token` hands out the stale token with no
issuance call (the issue counter stays 0 even in an environment whose
issuance always fails). -/
theorem c6_stale_token_kept :
    (loadToken c6cfg (some c6file) c6st).1 = false ∧
    (loadToken c6cfg (some c6file) c6st).2.access_token = some "STALE" ∧
    (loadToken c6cfg (some c6file) c6st).2.refresh_token = some "R0" ∧
    ensureToken c6cfg c6env (loadToken c6cfg (some c6file) c6st).2 =
      Except.ok ("STALE", (loadToken c6cfg (some c6file) c6st).2) ∧
    (loadToken c6cfg (some c6file) c6st).2.issues = 0 :=
  ⟨rfl, rfl, rfl, rfl, rfl⟩

/-- C7 (amended): `revoke()` succeeds trivially — no network call, state
untouched — when no token is held; with a token held (and a configured
key/secret) it calls the revoke endpoint, and **only on a decodable
HTTP-200 response** clears the in-memory access token, refresh token and
expiry and deletes the persisted token file, where an `os.remove` failure
is logged, not propagated, and does not affect the `True` result; on a
non-200 response, an undecodable 200 body, or a transport exception it
returns `False` and leaves the in-memory credential and the persisted
file unchanged (the claim as stated — clearing "regardless of the network
outcome" — fails on those outcomes, see the counterexample). -/
theorem c7_revoke_behavior (cfg : ApiConfig) (env : NetEnv) (st : ApiState) :
    (¬ pyTruthy st.access_token → revokeToken cfg env st = (true, st)) ∧
    (pyTruthy st.access_token → pyTruthy cfg.api_key → pyTruthy cfg.api_secret →
      ((env.revoke = RevokeOutcome.resp 200 true →
        revokeToken cfg env st =
          (true, { st with
            access_token := none
            token_expires_inf := false
            refresh_token := none
            token_file := if st.token_file.isSome ∧ ¬ env.removeFileFails then none
              else st.token_file
            revokes := st.revokes + 1 })) ∧
       (∀ status jsonOk, env.revoke = RevokeOutcome.resp status jsonOk →
        (status ≠ 200 ∨ jsonOk = false) →
        revokeToken cfg env st = (false, { st with revokes := st.revokes + 1 })) ∧
       (env.revoke = RevokeOutcome.exn →
        revokeToken cfg env st = (false, { st with revokes := st.revokes + 1 })))) := by
  constructor
  · intro h
    unfold revokeToken
    rw [if_pos h]
  · intro hta hk hsc
    refine ⟨?_, ?_, ?_⟩
    · intro hrev
      unfold revokeToken
      rw [if_neg (by simp [hta]), if_neg (by simp [hk, hsc]), hrev]
      dsimp only
      rw [if_pos rfl, if_neg (by simp)]
    · intro status jsonOk hrev hbad
      unfold revokeToken
      rw [if_neg (by simp [hta]), if_neg (by simp [hk, hsc]), hrev]
      dsimp only
      by_cases h200 : status = 200
      · rw [if_pos h200]
        rcases hbad with h | hjf
        · exact absurd h200 h
        · subst hjf
          rw [if_pos (by simp)]
      · rw [if_neg h200]
    · intro hrev
      unfold revokeToken
      rw [if_neg (by simp [hta]), if_neg (by simp [hk, hsc]), hrev]

def c7cfg : ApiConfig := ⟨some "KEY", some "SECRET", true⟩

def c7file : TokenFile := ⟨some "TOK", some "R", some true, some "KEY"⟩

def c7st : ApiState := ⟨some "TOK", some "R", true, some c7file, [], 0, 0⟩

/-- An environment whose revoke endpoint answers HTTP 500. -/
def c7env : NetEnv := ⟨fun _ => IssueOutcome.fails, fun _ => SendOutcome.exn,
  RevokeOutcome.resp 500 true, false⟩

/-- C7, claim as stated, is false: with a token held and the revoke
endpoint answering a non-200 status, `revoke_token` returns `False` and
clears nothing — the in-memory access and refresh tokens and the
persisted token file are all still in place, although the claim says the
local state is cleared regardless of the network outcome. -/
theorem c7_counterexample :
    (revokeToken c7cfg c7env c7st).1 = false ∧
    (revokeToken c7cfg c7env c7st).2.access_token = some "TOK" ∧
    (revokeToken c7cfg c7env c7st).2.refresh_token = some "R" ∧
    (revokeToken c7cfg c7env c7st).2.token_file = some c7file :=
  ⟨rfl, rfl, rfl, rfl⟩

/-- An environment whose revoke endpoint answers a decodable HTTP 200. -/
def c7wenv : NetEnv := ⟨fun _ => IssueOutcome.fails, fun _ => SendOutcome.exn,
  RevokeOutcome.resp 200 true, false⟩

/-- C7 witness: the amended theorem at the concrete 200-response
environment — the credential is cleared, the file deleted, the result
`True`. -/
theorem c7_witness :
    revokeToken c7cfg c7wenv c7st =
      (true, { c7st with
        access_token := none
        token_expires_inf := false
        refresh_token := none
        token_file := if c7st.token_file.isSome ∧ ¬ c7wenv.removeFileFails then none
          else c7st.token_file
        revokes := c7st.revokes + 1 }) :=
  ((c7_revoke_behavior c7cfg c7wenv c7st).2 (by decide) (by decide) (by decide)).1 rfl
